import Mathlib

/-!
Verification development for the mongopenfga example repository.

The repository's own code is the HTTP client `examples/mongodb/client/main.go`:
an `OpenFGAClient` struct with operations `CreateStore`,
`WriteAuthorizationModel`, `Write`, `Check`, `Read`, each going through the
shared helper `doRequest`, and a `main` driver that runs them in sequence.
Those are embedded below directly from the Go source, with the HTTP server
abstracted as an environment (`HttpEnv`) that fixes the outcome of each
fallible step of `doRequest`.

The OpenFGA server itself (model store, tuple store, rewrite evaluator) is an
external collaborator not present in the repository; where a claim is about
its behaviour, the relevant component is modelled from the specification and
marked as such in its doc comment.
-/

/-- A relationship tuple, mirroring Go `TupleKey` (main.go lines 32-36):
fields `user`, `relation`, `object`. -/
structure TupleKey where
  user : String
  relation : String
  object : String
deriving DecidableEq, Repr

/-- A JSON value, used to represent the request bodies the client builds
before `json.Marshal` serialises them. Object fields are an ordered
association list. -/
inductive Json where
  | str : String → Json
  | num : Int → Json
  | bool : Bool → Json
  | arr : List Json → Json
  | obj : List (String × Json) → Json

/-- Top-level field lookup in a JSON object; `none` on non-objects. -/
def Json.lookup : Json → String → Option Json
  | .obj fields, k => (fields.find? (fun p => p.1 == k)).map (fun p => p.2)
  | _, _ => none

/-- The client state, mirroring Go `OpenFGAClient` (main.go lines 58-63).
The `*http.Client` field is represented by its only configured datum, the
timeout in seconds. -/
structure OpenFGAClient where
  baseURL : String
  httpTimeoutSeconds : Nat
  storeID : String
  authorizationModelID : String
deriving DecidableEq, Repr

/-- Constructor `NewOpenFGAClient` (main.go lines 65-70): empty store and
model IDs, an `http.Client` with a 30-second timeout. -/
def NewOpenFGAClient (baseURL : String) : OpenFGAClient :=
  { baseURL := baseURL
    httpTimeoutSeconds := 30
    storeID := ""
    authorizationModelID := "" }

/-- The possible error returns of `doRequest` (main.go lines 72-109), one
constructor per `return err` site: `json.Marshal` failure (line 77),
`http.NewRequest` failure (line 84), `httpClient.Do` failure (line 91),
`io.ReadAll` failure (line 97), the `HTTP %d: %s` error for status ≥ 400
(line 101) carrying the status code and the response body, and
`json.Unmarshal` failure (line 105). -/
inductive DoRequestError where
  | marshalError (msg : String)
  | requestBuildError (msg : String)
  | transportError (msg : String)
  | readBodyError (msg : String)
  | httpError (statusCode : Nat) (body : String)
  | decodeError (msg : String)
deriving DecidableEq, Repr

/-- The environment abstracting the outcome of each fallible step of one
`doRequest` call: the result of `json.Marshal` on the request body, of
`http.NewRequest`, of `httpClient.Do` (on success, the response status
code), of `io.ReadAll` on the response body (on success, the body string),
and of `json.Unmarshal` into the result value of type `α` (on failure it
carries the message and the value left in the result variable, since Go's
`json.Unmarshal` may write part of the output before failing). -/
structure HttpEnv (α : Type) where
  marshalResult : Except String Unit
  requestBuildResult : Except String Unit
  transportResult : Except String Nat
  readBodyResult : Except String String
  unmarshalResult : Except (String × α) α

/-- True on `Except.ok`. -/
def exOk {ε α : Type} : Except ε α → Bool
  | .ok _ => true
  | .error _ => false

/-- True on `Except.error`. -/
def exErr {ε α : Type} : Except ε α → Bool
  | .ok _ => false
  | .error _ => true

/-- The outcome of one `doRequest` call: how many HTTP requests were issued
(`httpClient.Do` reached), the value held by the result variable afterwards,
and the returned error, if any. -/
structure DoRequestOutcome (α : Type) where
  requestsIssued : Nat
  value : α
  error : Option DoRequestError

/-- Embedding of `OpenFGAClient.doRequest` (main.go lines 72-109).
`hasBody` is `body != nil`; `wantsResult` is `result != nil`; `init` is the
zero value the caller declared for its result variable. The steps run in
source order: marshal the body (only when present), build the request, send
it, read the response body, reject status ≥ 400 with an error carrying the
status and body, and finally unmarshal into the result when one is wanted. -/
def doRequest {α : Type} (env : HttpEnv α) (hasBody wantsResult : Bool)
    (init : α) : DoRequestOutcome α :=
  match (if hasBody then env.marshalResult else Except.ok ()) with
  | .error e => ⟨0, init, some (.marshalError e)⟩
  | .ok _ =>
    match env.requestBuildResult with
    | .error e => ⟨0, init, some (.requestBuildError e)⟩
    | .ok _ =>
      match env.transportResult with
      | .error e => ⟨1, init, some (.transportError e)⟩
      | .ok statusCode =>
        match env.readBodyResult with
        | .error e => ⟨1, init, some (.readBodyError e)⟩
        | .ok respBody =>
          if 400 ≤ statusCode then
            ⟨1, init, some (.httpError statusCode respBody)⟩
          else if wantsResult then
            match env.unmarshalResult with
            | .error (e, leftover) => ⟨1, leftover, some (.decodeError e)⟩
            | .ok v => ⟨1, v, none⟩
          else ⟨1, init, none⟩

/-- Server response to `CreateStore`, mirroring Go `Store` (main.go 14-17). -/
structure Store where
  id : String
  name : String
deriving DecidableEq, Repr

/-- Server response to `WriteAuthorizationModel`, mirroring Go
`WriteAuthModelResponse` (main.go 28-30). -/
structure WriteAuthModelResponse where
  authorizationModelID : String
deriving DecidableEq, Repr

/-- Server response to `Check`, mirroring Go `CheckResponse` (main.go 48-50);
its Go zero value has `Allowed = false`. -/
structure CheckResponse where
  allowed : Bool
deriving DecidableEq, Repr

/-- Server response to `Read`, mirroring Go `ReadResponse` (main.go 52-56),
flattening the anonymous `Key` wrapper. -/
structure ReadResponse where
  tuples : List TupleKey
deriving DecidableEq, Repr

/-- An authorization model payload, mirroring Go `AuthModel` (main.go 23-26);
the `json.RawMessage` type definitions are kept as their raw text. -/
structure AuthModel where
  schemaVersion : String
  typeDefinitions : String
deriving DecidableEq, Repr

/-- The HTTP request a client operation hands to `doRequest`: the method and
path, and the body value passed as `doRequest`'s `body` argument (`none` for
Go `nil`). -/
structure RequestSpec where
  method : String
  path : String
  body : Option Json

/-- The complete result of one client operation: the request it issued, the
client state afterwards, the returned response pointer (`none` for Go `nil`)
and the returned error. -/
structure OpResult (α : Type) where
  request : RequestSpec
  client : OpenFGAClient
  value : Option α
  error : Option DoRequestError

/-- Embedding of `OpenFGAClient.CreateStore` (main.go 111-120): POST
`/stores` with body `{"name": name}`; on error return `nil` and leave the
client unchanged; on success set `c.storeID = store.ID` and return the
store. -/
def CreateStore (c : OpenFGAClient) (name : String) (env : HttpEnv Store) :
    OpResult Store :=
  let out := doRequest env true true ⟨"", ""⟩
  { request := ⟨"POST", "/stores", some (Json.obj [("name", Json.str name)])⟩
    client :=
      match out.error with
      | none => { c with storeID := out.value.id }
      | some _ => c
    value :=
      match out.error with
      | none => some out.value
      | some _ => none
    error := out.error }

/-- Embedding of `OpenFGAClient.WriteAuthorizationModel` (main.go 122-131):
POST `/stores/{storeID}/authorization-models`; on error return `nil` and
leave the client unchanged; on success set `c.authorizationModelID` from the
response. -/
def WriteAuthorizationModel (c : OpenFGAClient) (model : AuthModel)
    (env : HttpEnv WriteAuthModelResponse) : OpResult WriteAuthModelResponse :=
  let out := doRequest env true true ⟨""⟩
  { request := ⟨"POST", "/stores/" ++ c.storeID ++ "/authorization-models",
      some (Json.obj [("schema_version", Json.str model.schemaVersion),
                      ("type_definitions", Json.str model.typeDefinitions)])⟩
    client :=
      match out.error with
      | none => { c with authorizationModelID := out.value.authorizationModelID }
      | some _ => c
    value :=
      match out.error with
      | none => some out.value
      | some _ => none
    error := out.error }

/-- The JSON object the client builds for one tuple key inside the write
request (main.go 137-141). -/
def tupleKeyJson (t : TupleKey) : Json :=
  Json.obj [("user", Json.str t.user), ("relation", Json.str t.relation),
            ("object", Json.str t.object)]

/-- The body of the tuple-write request (main.go 134-145): a `writes` array
holding a single `tuple_key` entry built from `tuples[0]`, plus the client's
current `authorization_model_id`. -/
def writeBody (c : OpenFGAClient) (t0 : TupleKey) : Json :=
  Json.obj [("writes", Json.arr [Json.obj [("tuple_key", tupleKeyJson t0)]]),
            ("authorization_model_id", Json.str c.authorizationModelID)]

/-- Embedding of `OpenFGAClient.Write` (main.go 133-153). The Go code
unconditionally evaluates `tuples[0]` while building the body, which panics
on an empty slice: that panic is modelled as the `none` result. For a
non-empty list it issues POST `/stores/{storeID}/write` with the body built
from the FIRST tuple only, passes `nil` as the result target, and leaves the
client state unchanged. -/
def Write (c : OpenFGAClient) (tuples : List TupleKey) (env : HttpEnv Unit) :
    Option (OpResult Unit) :=
  match tuples with
  | [] => none
  | t0 :: _ =>
    let out := doRequest env true false ()
    some { request := ⟨"POST", "/stores/" ++ c.storeID ++ "/write",
             some (writeBody c t0)⟩
           client := c
           value := none
           error := out.error }

/-- Embedding of `OpenFGAClient.Check` (main.go 155-165): POST
`/stores/{storeID}/check` with the user/relation/object body; the result
variable starts at the zero value `{allowed := false}` and the function
returns `&resp, err`, so the response pointer is non-nil even on error. -/
def Check (c : OpenFGAClient) (user relation obj : String)
    (env : HttpEnv CheckResponse) : OpResult CheckResponse :=
  let out := doRequest env true true ⟨false⟩
  { request := ⟨"POST", "/stores/" ++ c.storeID ++ "/check",
      some (Json.obj [("user", Json.str user), ("relation", Json.str relation),
                      ("object", Json.str obj)])⟩
    client := c
    value := some out.value
    error := out.error }

/-- Embedding of `OpenFGAClient.Read` (main.go 167-172): POST
`/stores/{storeID}/read` with a `nil` body; returns `&resp, err`, so the
response pointer is non-nil even on error. -/
def Read (c : OpenFGAClient) (env : HttpEnv ReadResponse) :
    OpResult ReadResponse :=
  let out := doRequest env false true ⟨[]⟩
  { request := ⟨"POST", "/stores/" ++ c.storeID ++ "/read", none⟩
    client := c
    value := some out.value
    error := out.error }

/-- A tag naming one HTTP call that `main` makes, used to record the trace
of calls in order. -/
inductive ApiCall where
  | createStore
  | writeAuthModel
  | writeTuples
  | check (user relation obj : String)
  | readTuples
deriving DecidableEq, Repr

/-- One environment per HTTP call `main` can make, fixing the server's
behaviour for the whole run. -/
structure MainEnvs where
  createEnv : HttpEnv Store
  modelEnv : HttpEnv WriteAuthModelResponse
  writeEnv : HttpEnv Unit
  checkEnv1 : HttpEnv CheckResponse
  checkEnv2 : HttpEnv CheckResponse
  checkEnv3 : HttpEnv CheckResponse
  checkEnv4 : HttpEnv CheckResponse
  readEnv : HttpEnv ReadResponse

/-- The authorization model `main` writes (main.go 190-224): schema 1.1 with
the document/owner type definitions given as raw JSON text. -/
def mainAuthModel : AuthModel :=
  { schemaVersion := "1.1"
    typeDefinitions := "[\x7btype: user\x7d, \x7btype: document, relations: \x7bowner: union of this\x7d\x7d]" }

/-- The tuple list `main` writes (main.go 234-240). -/
def mainTuples : List TupleKey :=
  [⟨"user:alice", "owner", "document:budget-2024"⟩]

/-- Embedding of `main` (main.go 174-305) as the ordered trace of HTTP calls
it makes under a given server behaviour. `log.Fatalf` after a failed
`CreateStore`, `WriteAuthorizationModel` or `Write` exits the process, which
cuts the trace; a failed `Check` is only logged (`log.Printf` + `continue`),
so all four checks always run; `Read` is the final call, and a failure there
is `log.Fatalf` after the call has already been made. -/
def runMain (envs : MainEnvs) : List ApiCall :=
  let c0 := NewOpenFGAClient "http://localhost:8080"
  let r1 := CreateStore c0 "document-sharing-system" envs.createEnv
  match r1.error with
  | some _ => [.createStore]
  | none =>
    let c1 := r1.client
    let r2 := WriteAuthorizationModel c1 mainAuthModel envs.modelEnv
    match r2.error with
    | some _ => [.createStore, .writeAuthModel]
    | none =>
      let c2 := r2.client
      match Write c2 mainTuples envs.writeEnv with
      | none => [.createStore, .writeAuthModel]
      | some r3 =>
        match r3.error with
        | some _ => [.createStore, .writeAuthModel, .writeTuples]
        | none =>
          let _r4 := Check c2 "user:alice" "owner" "document:budget-2024" envs.checkEnv1
          let _r5 := Check c2 "user:bob" "owner" "document:budget-2024" envs.checkEnv2
          let _r6 := Check c2 "user:charlie" "owner" "document:budget-2024" envs.checkEnv3
          let _r7 := Check c2 "user:dave" "owner" "document:budget-2024" envs.checkEnv4
          let _r8 := Read c2 envs.readEnv
          [.createStore, .writeAuthModel, .writeTuples,
           .check "user:alice" "owner" "document:budget-2024",
           .check "user:bob" "owner" "document:budget-2024",
           .check "user:charlie" "owner" "document:budget-2024",
           .check "user:dave" "owner" "document:budget-2024",
           .readTuples]

/-- Modelled from the spec: the server's Tuple Store `Write` in non-strict
mode (spec §4.2), which is absent from src/ (it lives in the external
OpenFGA server). An idempotent set insert: writing an already-present tuple
is a no-op, otherwise the tuple is appended. -/
def tupleStoreWrite (store : List TupleKey) (t : TupleKey) : List TupleKey :=
  if t ∈ store then store else store ++ [t]

/-- Writing the same tuple `n` times in a row (spec §4.2 non-strict mode). -/
def tupleStoreWriteN (store : List TupleKey) (t : TupleKey) : Nat → List TupleKey
  | 0 => store
  | n + 1 => tupleStoreWrite (tupleStoreWriteN store t n) t

/-- Modelled from the spec: the server's Tuple Store `Read` with an empty
filter (spec §4.2), absent from src/; it produces the current tuples. -/
def tupleStoreRead (store : List TupleKey) : List TupleKey := store

/-- Modelled from the spec: a relation's rewrite rule (spec §3), absent from
src/ — a tagged variant `Direct`, `Union`, `Intersection`,
`Exclusion(base, subtract)` or `TupleToUserset(tuplesetRelation,
computedRelation)`. -/
inductive RewriteRule where
  | direct
  | union (children : List RewriteRule)
  | intersection (children : List RewriteRule)
  | exclusion (base subtract : RewriteRule)
  | tupleToUserset (tuplesetRelation computedRelation : String)

/-- Modelled from the spec: a type definition (spec §3) — a type name plus a
mapping from relation name to rewrite rule. -/
structure TypeDefinition where
  name : String
  relations : List (String × RewriteRule)

/-- Modelled from the spec: an authorization model's ordered list of type
definitions (spec §3). -/
def AuthorizationModel : Type := List TypeDefinition

/-- Split a character list at every occurrence of `sep`; the groups never
contain `sep` and there is always at least one group, matching
`String.splitOn` for a one-character separator. -/
def splitCharList (sep : Char) : List Char → List (List Char)
  | [] => [[]]
  | x :: xs =>
    if x == sep then [] :: splitCharList sep xs
    else
      match splitCharList sep xs with
      | [] => [[x]]
      | g :: gs => (x :: g) :: gs

/-- Split a string at every occurrence of the character `sep`. -/
def splitOnChar (sep : Char) (s : String) : List String :=
  (splitCharList sep s.data).map (fun cs => String.mk cs)

/-- The type part of a `type:id` object string. -/
def objectTypeOf (o : String) : String :=
  match splitOnChar ':' o with
  | t :: _ => t
  | [] => o

/-- Parse a usersёt reference `type:id#relation` into its object and relation
parts; `none` when the user string is a plain `type:id` literal. -/
def parseUserset (u : String) : Option (String × String) :=
  match splitOnChar '#' u with
  | [o, r] => some (o, r)
  | _ => none

/-- The object an `O#R` usersёt user field refers to (its part before `#`),
used by tuple-to-usersёt enumeration. -/
def objectOfUser (u : String) : String :=
  match splitOnChar '#' u with
  | o :: _ => o
  | [] => u

/-- Look up the rewrite rule the model declares for `(objectType, relation)`. -/
def lookupRule (model : AuthorizationModel) (ty rel : String) :
    Option RewriteRule :=
  match model.find? (fun td => td.name == ty) with
  | some td => (td.relations.find? (fun p => p.1 == rel)).map (fun p => p.2)
  | none => none

/-- Modelled from the spec: evaluation of one rewrite rule (spec §4.3),
absent from src/ (it lives in the external OpenFGA server).
`Direct` holds iff the tuple `(user, relation, obj)` is stored, or some
stored tuple `(V#R2, relation, obj)` has `user` satisfying `R2` on `V`
(usersёt indirection, resolved by looking up `R2`'s rule on `V`'s type);
`Union` holds iff any child holds; `Intersection` iff all children hold;
`Exclusion` iff the base holds and the subtrahend does not;
`TupleToUserset(tr, cr)` holds iff some stored tuple `(_, tr, obj)` names an
object on which `user` satisfies `cr`. The `fuel` argument is the depth
guard of spec §4.3: every recursive step consumes one unit and exhaustion
denies (`DepthExceeded` treated as `false`, never a crash). -/
def evalRule (model : AuthorizationModel) (tuples : List TupleKey) :
    Nat → RewriteRule → String → String → String → Bool
  | 0, _, _, _, _ => false
  | fuel + 1, .direct, user, relation, obj =>
    (tuples.any fun t =>
      t.user == user && t.relation == relation && t.object == obj) ||
    (tuples.any fun t =>
      t.relation == relation && t.object == obj &&
      (match parseUserset t.user with
       | some (v, r2) =>
         (match lookupRule model (objectTypeOf v) r2 with
          | some r => evalRule model tuples fuel r user r2 v
          | none => false)
       | none => false))
  | fuel + 1, .union children, user, relation, obj =>
    children.any fun c => evalRule model tuples fuel c user relation obj
  | fuel + 1, .intersection children, user, relation, obj =>
    children.all fun c => evalRule model tuples fuel c user relation obj
  | fuel + 1, .exclusion base subtract, user, relation, obj =>
    evalRule model tuples fuel base user relation obj &&
    !evalRule model tuples fuel subtract user relation obj
  | fuel + 1, .tupleToUserset tr cr, user, _, obj =>
    tuples.any fun t =>
      t.relation == tr && t.object == obj &&
      (match lookupRule model (objectTypeOf (objectOfUser t.user)) cr with
       | some r => evalRule model tuples fuel r user cr (objectOfUser t.user)
       | none => false)

/-- Modelled from the spec: the Rewrite Evaluator's `Evaluate` (spec §4.3),
absent from src/ — look up the rewrite rule for `(objectType(obj),
relation)` and evaluate it under the depth guard; a missing rule denies. -/
def evaluate (model : AuthorizationModel) (tuples : List TupleKey)
    (fuel : Nat) (user relation obj : String) : Bool :=
  match lookupRule model (objectTypeOf obj) relation with
  | some r => evalRule model tuples fuel r user relation obj
  | none => false

/-- Modelled from the spec: the Query Façade's `Check` (spec §4.4), absent
from src/ — it invokes the evaluator with the configured depth bound
(default 25 per spec §4.3) and returns the allow/deny boolean. -/
def CheckDecision (model : AuthorizationModel) (tuples : List TupleKey)
    (user relation obj : String) : Bool :=
  evaluate model tuples 25 user relation obj

/-- The authorization model `main` writes, as the evaluator sees it
(main.go 190-219): a `user` type with no relations, and a `document` type
whose `owner` relation is a union with the single child `this` (direct
assignment). -/
def demoModel : AuthorizationModel :=
  [⟨"user", []⟩,
   ⟨"document", [("owner", RewriteRule.union [RewriteRule.direct])]⟩]

/-- The tuple store after `main`'s single tuple write: the tuple
`(user:alice, owner, document:budget-2024)` inserted into an empty store. -/
def demoTuples : List TupleKey :=
  tupleStoreWrite [] ⟨"user:alice", "owner", "document:budget-2024"⟩

/-- The payload of an `Except.ok`, `none` on `Except.error`. -/
def exVal {ε α : Type} : Except ε α → Option α
  | .ok a => some a
  | .error _ => none

/-- Recover a tuple key from its JSON object form (the inverse reading of
`tupleKeyJson`); `none` when the fields are missing or not strings. -/
def tupleOfJson (j : Json) : Option TupleKey :=
  match j.lookup "user", j.lookup "relation", j.lookup "object" with
  | some (.str u), some (.str r), some (.str o) => some ⟨u, r, o⟩
  | _, _, _ => none

/-- The tuple keys a write-request body submits: the `tuple_key` entries of
its `writes` array. -/
def writeTuplesOfBody (j : Json) : List TupleKey :=
  match j.lookup "writes" with
  | some (.arr xs) => xs.filterMap (fun e => (e.lookup "tuple_key").bind tupleOfJson)
  | _ => []

/-- An environment in which every step of `doRequest` succeeds, the server
answers status 200, and decoding yields `v`. -/
def okEnv {α : Type} (v : α) : HttpEnv α :=
  ⟨.ok (), .ok (), .ok 200, .ok "{}", .ok v⟩

/-- An environment in which the only failing step is `http.NewRequest`
(for instance because the base URL does not parse): the transport, had it
been reached, would have answered 200 with a well-formed body. -/
def badRequestBuildEnv {α : Type} (v : α) : HttpEnv α :=
  ⟨.ok (), .error "parse error in request URL", .ok 200, .ok "{}", .ok v⟩

/-- An environment in which every step succeeds but the server answers
status 500 with an error body. -/
def status500Env {α : Type} (v : α) : HttpEnv α :=
  ⟨.ok (), .ok (), .ok 500, .ok "internal server error", .ok v⟩

/-- A run of `main` in which every HTTP call succeeds: stores and models are
created, the four checks answer as expected, and the read returns the
written tuple. -/
def allOkEnvs : MainEnvs :=
  { createEnv := okEnv ⟨"01HSTORE", "document-sharing-system"⟩
    modelEnv := okEnv ⟨"01HMODEL"⟩
    writeEnv := okEnv ()
    checkEnv1 := okEnv ⟨true⟩
    checkEnv2 := okEnv ⟨false⟩
    checkEnv3 := okEnv ⟨false⟩
    checkEnv4 := okEnv ⟨false⟩
    readEnv := okEnv ⟨mainTuples⟩ }

/-- The client used for the C1 failing input, as `main` would hold it after
store and model creation. -/
def c1Client : OpenFGAClient :=
  { baseURL := "http://localhost:8080"
    httpTimeoutSeconds := 30
    storeID := "01HSTORE"
    authorizationModelID := "01HMODEL" }

/-- C9: `OpenFGAClient.Write` is only defined for non-empty tuple lists —
on the empty list the body construction indexes `tuples[0]` and panics
(modelled as `none`), and for any non-empty list the indexing is safe, so
the operation produces a result (`isSome`) and the out-of-range branch is
unreachable. -/
theorem C9_write_empty_list_panics :
    (∀ (c : OpenFGAClient) (env : HttpEnv Unit), Write c [] env = none) ∧
    (∀ (c : OpenFGAClient) (t : TupleKey) (ts : List TupleKey)
      (env : HttpEnv Unit), (Write c (t :: ts) env).isSome = true) :=
  ⟨fun _ _ => rfl, fun _ _ _ _ => rfl⟩

/-- C4: each client operation issues POST to the conventional path for its
store: `/stores`, `/stores/{storeID}/authorization-models`,
`/stores/{storeID}/write`, `/stores/{storeID}/check`,
`/stores/{storeID}/read`, where `{storeID}` is the client's current store
ID. -/
theorem C4_paths (c : OpenFGAClient) (name : String) (model : AuthModel)
    (user relation obj : String) (t : TupleKey) (ts : List TupleKey)
    (envS : HttpEnv Store) (envM : HttpEnv WriteAuthModelResponse)
    (envW : HttpEnv Unit) (envC : HttpEnv CheckResponse)
    (envR : HttpEnv ReadResponse) :
    (CreateStore c name envS).request.method = "POST" ∧
    (CreateStore c name envS).request.path = "/stores" ∧
    (WriteAuthorizationModel c model envM).request.method = "POST" ∧
    (WriteAuthorizationModel c model envM).request.path =
      "/stores/" ++ c.storeID ++ "/authorization-models" ∧
    (∃ r, Write c (t :: ts) envW = some r ∧
      r.request.method = "POST" ∧
      r.request.path = "/stores/" ++ c.storeID ++ "/write") ∧
    (Check c user relation obj envC).request.method = "POST" ∧
    (Check c user relation obj envC).request.path =
      "/stores/" ++ c.storeID ++ "/check" ∧
    (Read c envR).request.method = "POST" ∧
    (Read c envR).request.path = "/stores/" ++ c.storeID ++ "/read" :=
  ⟨rfl, rfl, rfl, rfl, ⟨_, rfl, rfl, rfl⟩, rfl, rfl, rfl, rfl⟩

/-- C1 failing input: the write request built for a two-tuple list contains
only the first tuple — the second tuple is absent from the submitted
`writes` array even though the input list has two tuples and the caller
reports its full length as written. -/
theorem C1_write_drops_second_tuple :
    ∃ r, Write c1Client
        [⟨"user:alice", "owner", "document:a"⟩,
         ⟨"user:bob", "owner", "document:b"⟩] (okEnv ()) = some r ∧
      ∃ b, r.request.body = some b ∧
        writeTuplesOfBody b = [⟨"user:alice", "owner", "document:a"⟩] ∧
        (⟨"user:bob", "owner", "document:b"⟩ : TupleKey) ∉ writeTuplesOfBody b ∧
        ([⟨"user:alice", "owner", "document:a"⟩,
          ⟨"user:bob", "owner", "document:b"⟩] : List TupleKey).length = 2 := by
  refine ⟨_, rfl, _, rfl, ?_, ?_, rfl⟩ <;> decide

/-- C10: `OpenFGAClient.Check` always returns a non-nil response pointer
(the `value` component is always `some`), and whenever the server answers
with a status of 400 or more the returned response still holds the zero
value `allowed = false`, alongside a returned error — an errored check is
never reported as allowed. -/
theorem C10_check_response_nonnil (c : OpenFGAClient)
    (user relation obj : String) (env : HttpEnv CheckResponse) :
    (Check c user relation obj env).value.isSome = true ∧
    (∀ code, exVal env.transportResult = some code → 400 ≤ code →
      (Check c user relation obj env).value = some ⟨false⟩ ∧
      (Check c user relation obj env).error.isSome = true) := by
  obtain ⟨m, rb, tr, rd, um⟩ := env
  constructor
  · rfl
  · intro code htr h400
    rcases m with e | u
    · simp [Check, doRequest]
    · rcases rb with e2 | u2
      · simp [Check, doRequest]
      · rcases tr with e3 | code2
        · simp [exVal] at htr
        · simp only [exVal, Option.some.injEq] at htr
          subst htr
          rcases rd with e4 | b
          · simp [Check, doRequest]
          · rcases um with ⟨e5, lf⟩ | v <;> simp [Check, doRequest, h400]

/-- C3 (amended): `doRequest` issues at most one HTTP request per call —
exactly one when marshaling and request construction succeed, and none
otherwise — never retrying; it returns an error exactly when marshaling
fails, request construction fails, the transport fails, reading the body
fails, the status code is 400 or more, or (when a result is expected)
decoding fails; and when the status code is 400 or more and the earlier
steps succeeded, the returned error carries that status code and the
response body unchanged. -/
theorem C3_at_most_one_request {α : Type} (env : HttpEnv α)
    (hasBody wantsResult : Bool) (init : α) :
    (doRequest env hasBody wantsResult init).requestsIssued ≤ 1 ∧
    ((doRequest env hasBody wantsResult init).requestsIssued = 1 ↔
      ((hasBody = true → exErr env.marshalResult = false) ∧
        exErr env.requestBuildResult = false)) ∧
    ((doRequest env hasBody wantsResult init).error.isSome = true ↔
      ((hasBody = true ∧ exErr env.marshalResult = true) ∨
        exErr env.requestBuildResult = true ∨
        exErr env.transportResult = true ∨
        exErr env.readBodyResult = true ∨
        (∃ code, exVal env.transportResult = some code ∧ 400 ≤ code) ∨
        (wantsResult = true ∧ exErr env.unmarshalResult = true))) ∧
    (∀ code b, (hasBody = true → exErr env.marshalResult = false) →
      exErr env.requestBuildResult = false →
      exVal env.transportResult = some code →
      exVal env.readBodyResult = some b → 400 ≤ code →
      (doRequest env hasBody wantsResult init).error =
        some (.httpError code b)) := by
  obtain ⟨m, rb, tr, rd, um⟩ := env
  cases hasBody <;> cases wantsResult <;>
    rcases m with me | mu <;> rcases rb with re | ru <;>
    rcases tr with te | code0 <;> rcases rd with de | b0 <;>
    rcases um with ⟨ue, lf⟩ | uv <;>
    simp [doRequest, exErr, exVal] <;>
    (try split_ifs) <;> (try simp_all)

/-- C3 counterexample to the claim as stated: in an environment where only
`http.NewRequest` fails (marshaling succeeds, the transport would answer
200 with a readable body, decoding would succeed), the call returns an
error although none of the claim's five error causes holds, and it issues
zero HTTP requests rather than exactly one. -/
theorem C3_counterexample :
    (doRequest (badRequestBuildEnv ()) true true ()).error.isSome = true ∧
    (doRequest (badRequestBuildEnv ()) true true ()).requestsIssued = 0 ∧
    exErr (badRequestBuildEnv ()).marshalResult = false ∧
    exErr (badRequestBuildEnv ()).transportResult = false ∧
    exErr (badRequestBuildEnv ()).readBodyResult = false ∧
    exVal (badRequestBuildEnv ()).transportResult = some 200 ∧ 200 < 400 ∧
    exErr (badRequestBuildEnv ()).unmarshalResult = false := by decide

/-- Witness for the amended C3 theorem at a concrete environment: a
successful round trip answered with status 500 yields the HTTP error
carrying status and body. -/
theorem C3_witness :
    (doRequest (status500Env ()) true true ()).error =
      some (.httpError 500 "internal server error") :=
  (C3_at_most_one_request (status500Env ()) true true ()).2.2.2 500
    "internal server error" (fun _ => rfl) rfl rfl rfl (by omega)

/-- Witness for C10 at a concrete environment: a check answered with status
500 returns a non-nil response whose `allowed` is still `false`, even
though the decode step — never reached — would have yielded `true`. -/
theorem C10_witness :
    (Check c1Client "user:alice" "owner" "document:budget-2024"
      (status500Env ⟨true⟩)).value = some ⟨false⟩ :=
  ((C10_check_response_nonnil c1Client "user:alice" "owner"
    "document:budget-2024" (status500Env ⟨true⟩)).2 500 rfl (by omega)).1

/-- C6: a successful `CreateStore` sets exactly the `storeID` field to the
returned store's ID and changes nothing else; a successful
`WriteAuthorizationModel` sets exactly the `authorizationModelID` field to
the returned model ID; on an error return either operation leaves the
client unchanged and returns a nil value; and every subsequent tuple write
carries the stored `authorizationModelID` in its request body. -/
theorem C6_state_updates (c : OpenFGAClient) (name : String) (model : AuthModel)
    (envS : HttpEnv Store) (envM : HttpEnv WriteAuthModelResponse) :
    ((CreateStore c name envS).error = none →
      ∃ s, (CreateStore c name envS).value = some s ∧
        (CreateStore c name envS).client = { c with storeID := s.id }) ∧
    ((CreateStore c name envS).error.isSome = true →
      (CreateStore c name envS).client = c ∧
      (CreateStore c name envS).value = none) ∧
    ((WriteAuthorizationModel c model envM).error = none →
      ∃ r, (WriteAuthorizationModel c model envM).value = some r ∧
        (WriteAuthorizationModel c model envM).client =
          { c with authorizationModelID := r.authorizationModelID }) ∧
    ((WriteAuthorizationModel c model envM).error.isSome = true →
      (WriteAuthorizationModel c model envM).client = c ∧
      (WriteAuthorizationModel c model envM).value = none) ∧
    (∀ (t : TupleKey) (ts : List TupleKey) (envW : HttpEnv Unit),
      ∃ r, Write c (t :: ts) envW = some r ∧ r.client = c ∧
        (r.request.body.bind (fun b => b.lookup "authorization_model_id")) =
          some (Json.str c.authorizationModelID)) := by
  refine ⟨?_, ?_, ?_, ?_, ?_⟩
  · intro h
    rcases ho : (doRequest envS true true (⟨"", ""⟩ : Store)).error with _ | e
    · exact ⟨(doRequest envS true true ⟨"", ""⟩).value,
        by simp [CreateStore, ho], by simp [CreateStore, ho]⟩
    · rw [show (CreateStore c name envS).error =
          (doRequest envS true true ⟨"", ""⟩).error from rfl, ho] at h
      simp at h
  · intro h
    rcases ho : (doRequest envS true true (⟨"", ""⟩ : Store)).error with _ | e
    · rw [show (CreateStore c name envS).error =
          (doRequest envS true true ⟨"", ""⟩).error from rfl, ho] at h
      simp at h
    · exact ⟨by simp [CreateStore, ho], by simp [CreateStore, ho]⟩
  · intro h
    rcases ho : (doRequest envM true true (⟨""⟩ : WriteAuthModelResponse)).error with _ | e
    · exact ⟨(doRequest envM true true ⟨""⟩).value,
        by simp [WriteAuthorizationModel, ho], by simp [WriteAuthorizationModel, ho]⟩
    · rw [show (WriteAuthorizationModel c model envM).error =
          (doRequest envM true true ⟨""⟩).error from rfl, ho] at h
      simp at h
  · intro h
    rcases ho : (doRequest envM true true (⟨""⟩ : WriteAuthModelResponse)).error with _ | e
    · rw [show (WriteAuthorizationModel c model envM).error =
          (doRequest envM true true ⟨""⟩).error from rfl, ho] at h
      simp at h
    · exact ⟨by simp [WriteAuthorizationModel, ho], by simp [WriteAuthorizationModel, ho]⟩
  · intro t ts envW
    exact ⟨_, rfl, rfl, rfl⟩

/-- Witness for C6 at a concrete environment: a successful store creation
stores the returned ID in the `storeID` field. -/
theorem C6_witness :
    ∃ s, (CreateStore c1Client "document-sharing-system"
        (okEnv ⟨"01HSTORE", "document-sharing-system"⟩)).value = some s ∧
      (CreateStore c1Client "document-sharing-system"
        (okEnv ⟨"01HSTORE", "document-sharing-system"⟩)).client =
        { c1Client with storeID := s.id } :=
  (C6_state_updates c1Client "document-sharing-system" ⟨"1.1", "[]"⟩
    (okEnv ⟨"01HSTORE", "document-sharing-system"⟩) (okEnv ⟨"01HMODEL"⟩)).1 rfl

/-- C5: `main` runs create store, write model, write tuples, the four
checks, then read, strictly in that order; a failure of store creation,
model write or tuple write is `log.Fatalf`, which cuts the trace right
there, so no later HTTP call is made (a failed read is also fatal, and read
is the last call, so nothing follows it either; check failures are only
logged and do not stop the run). -/
theorem C5_main_sequential (envs : MainEnvs) :
    ((doRequest envs.createEnv true true (⟨"", ""⟩ : Store)).error.isSome = true →
      runMain envs = [ApiCall.createStore]) ∧
    ((doRequest envs.createEnv true true (⟨"", ""⟩ : Store)).error = none →
      (doRequest envs.modelEnv true true (⟨""⟩ : WriteAuthModelResponse)).error.isSome = true →
      runMain envs = [ApiCall.createStore, ApiCall.writeAuthModel]) ∧
    ((doRequest envs.createEnv true true (⟨"", ""⟩ : Store)).error = none →
      (doRequest envs.modelEnv true true (⟨""⟩ : WriteAuthModelResponse)).error = none →
      (doRequest envs.writeEnv true false ()).error.isSome = true →
      runMain envs =
        [ApiCall.createStore, ApiCall.writeAuthModel, ApiCall.writeTuples]) ∧
    ((doRequest envs.createEnv true true (⟨"", ""⟩ : Store)).error = none →
      (doRequest envs.modelEnv true true (⟨""⟩ : WriteAuthModelResponse)).error = none →
      (doRequest envs.writeEnv true false ()).error = none →
      runMain envs =
        [ApiCall.createStore, ApiCall.writeAuthModel, ApiCall.writeTuples,
         ApiCall.check "user:alice" "owner" "document:budget-2024",
         ApiCall.check "user:bob" "owner" "document:budget-2024",
         ApiCall.check "user:charlie" "owner" "document:budget-2024",
         ApiCall.check "user:dave" "owner" "document:budget-2024",
         ApiCall.readTuples]) := by
  refine ⟨?_, ?_, ?_, ?_⟩
  · intro h1
    rcases ho : (doRequest envs.createEnv true true (⟨"", ""⟩ : Store)).error with _ | e1
    · rw [ho] at h1; simp at h1
    · simp [runMain, CreateStore, ho]
  · intro h1 h2
    rcases ho : (doRequest envs.modelEnv true true (⟨""⟩ : WriteAuthModelResponse)).error with _ | e2
    · rw [ho] at h2; simp at h2
    · simp [runMain, CreateStore, WriteAuthorizationModel, h1, ho]
  · intro h1 h2 h3
    rcases ho : (doRequest envs.writeEnv true false ()).error with _ | e3
    · rw [ho] at h3; simp at h3
    · simp [runMain, CreateStore, WriteAuthorizationModel, Write, mainTuples, h1, h2, ho]
  · intro h1 h2 h3
    simp [runMain, CreateStore, WriteAuthorizationModel, Write, mainTuples, h1, h2, h3]

/-- Witness for C5 at a concrete all-success server behaviour: the full
trace in order. -/
theorem C5_witness :
    runMain allOkEnvs =
      [ApiCall.createStore, ApiCall.writeAuthModel, ApiCall.writeTuples,
       ApiCall.check "user:alice" "owner" "document:budget-2024",
       ApiCall.check "user:bob" "owner" "document:budget-2024",
       ApiCall.check "user:charlie" "owner" "document:budget-2024",
       ApiCall.check "user:dave" "owner" "document:budget-2024",
       ApiCall.readTuples] :=
  (C5_main_sequential allOkEnvs).2.2.2 rfl rfl rfl

/-- A plain `type:id` user reference is not a usersёt reference. -/
theorem parseUserset_alice : parseUserset "user:alice" = none := by decide

/-- Evaluating the demo model's `owner` relation on the demo store reduces
to direct tuple membership: it holds exactly of `user:alice`. -/
theorem evaluate_demo (fuel : Nat) (u : String) :
    evaluate demoModel demoTuples (fuel + 1 + 1) u "owner"
      "document:budget-2024" = ("user:alice" == u) := by
  have h : lookupRule demoModel (objectTypeOf "document:budget-2024") "owner" =
      some (RewriteRule.union [RewriteRule.direct]) := rfl
  simp [evaluate, h, evalRule, demoTuples, tupleStoreWrite, parseUserset_alice]

/-- C2: with the single tuple `(user:alice, owner, document:budget-2024)`
written under the model in which `owner` is directly assignable, the check
for `user:alice` is allowed and the check for every other user — in
particular `user:bob`, `user:charlie`, `user:dave` — is denied. -/
theorem C2_direct_check :
    CheckDecision demoModel demoTuples "user:alice" "owner"
      "document:budget-2024" = true ∧
    ∀ u : String, u ≠ "user:alice" →
      CheckDecision demoModel demoTuples u "owner"
        "document:budget-2024" = false := by
  constructor
  · decide
  · intro u hu
    have h := evaluate_demo 23 u
    have hb : ("user:alice" == u) = false := beq_eq_false_iff_ne.mpr (Ne.symm hu)
    exact h.trans hb

/-- Witness for C2 at the concrete user `user:bob`: the check is denied. -/
theorem C2_witness :
    CheckDecision demoModel demoTuples "user:bob" "owner"
      "document:budget-2024" = false :=
  C2_direct_check.2 "user:bob" (by decide)

/-- The written tuple is present after an idempotent write. -/
theorem tupleStoreWrite_mem (s : List TupleKey) (t : TupleKey) :
    t ∈ tupleStoreWrite s t := by
  unfold tupleStoreWrite
  split_ifs with hm
  · exact hm
  · simp

/-- An idempotent write preserves the no-duplicates invariant. -/
theorem tupleStoreWrite_nodup (s : List TupleKey) (t : TupleKey)
    (h : s.Nodup) : (tupleStoreWrite s t).Nodup := by
  unfold tupleStoreWrite
  split_ifs with hm
  · exact h
  · simp [List.nodup_append, h, hm]

/-- Any number of repeated writes preserves the no-duplicates invariant. -/
theorem tupleStoreWriteN_nodup (s : List TupleKey) (t : TupleKey)
    (h : s.Nodup) : ∀ n, (tupleStoreWriteN s t n).Nodup
  | 0 => h
  | n + 1 => tupleStoreWrite_nodup _ t (tupleStoreWriteN_nodup s t h n)

/-- C7: writing a tuple any number of times (at least once) into a
duplicate-free store and reading back yields that tuple exactly once, and
the store still holds no duplicates — repeated writes are idempotent
no-ops. -/
theorem C7_write_idempotent (s : List TupleKey) (t : TupleKey) (n : Nat)
    (h : s.Nodup) :
    (tupleStoreRead (tupleStoreWriteN s t (n + 1))).count t = 1 ∧
    (tupleStoreRead (tupleStoreWriteN s t (n + 1))).Nodup := by
  have hn : (tupleStoreWriteN s t (n + 1)).Nodup :=
    tupleStoreWriteN_nodup s t h (n + 1)
  have hm : t ∈ tupleStoreWriteN s t (n + 1) := tupleStoreWrite_mem _ t
  exact ⟨List.count_eq_one_of_mem hn hm, hn⟩

/-- Witness for C7 at a concrete store: three consecutive writes of the
same tuple into an empty store leave exactly one copy. -/
theorem C7_witness :
    (tupleStoreRead (tupleStoreWriteN []
      (⟨"user:alice", "owner", "document:budget-2024"⟩ : TupleKey) 3)).count
      ⟨"user:alice", "owner", "document:budget-2024"⟩ = 1 :=
  (C7_write_idempotent [] ⟨"user:alice", "owner", "document:budget-2024"⟩ 2
    List.nodup_nil).1

/-- The constructor configures the single shared HTTP client with a
30-second timeout, and no operation ever changes it; the wall-clock bound
itself is a property of the Go HTTP runtime outside this embedding. -/
theorem NewOpenFGAClient_timeout (baseURL : String) :
    (NewOpenFGAClient baseURL).httpTimeoutSeconds = 30 := rfl

